import Mathlib

/-!
Verification of the agentdex CLI/SDK event-construction, key-resolution,
API-client and polling behaviour, via a shallow embedding of the
TypeScript sources (`src/nostr.ts`, `src/client.ts`, the CLI entry file).

External collaborators (bech32/nip19 codecs, secp256k1 key derivation,
the relay transport, the HTTP stack) are modelled as parameters: the
embedded functions receive them as explicit pure function arguments,
mirroring how the source delegates to `nostr-tools` and `fetch`.
-/

namespace Agentdex

/-- A Nostr tag: a key followed by positional string values. -/
abbrev Tag := List String

/-- Ambient runtime state observable by a command invocation.  `now` is the
wall clock in unix seconds (read by the source via `Date.now`); embedded
functions that never read the clock simply ignore this argument. -/
structure World where
  now : Nat
  deriving Repr, DecidableEq

/-- JS truthiness of a possibly-undefined string (`undefined` and `""` are
falsy). -/
def truthy : Option String → Bool
  | some s => !(s == "")
  | none => false

/-- `String(n)` for an integral JS number. -/
def jsString (n : Int) : String := toString n

/-! ## Event builder (`createProfileEvent`, kind-31337 variant)

Embeds the `AgentProfile` interface and `createProfileEvent` of the
`nostr.ts` variant whose field set (name, website, avatar, human, ...)
matches the documented order of spec section 4.2.  Each `push*` helper is
the translation of one `if (profile.x) tags.push(...)` line. -/

/-- One entry of the `portfolio` list: url plus optional name/description. -/
structure PortfolioItem where
  url : String
  name : Option String
  description : Option String
  deriving Repr, DecidableEq

/-- The `AgentProfile` input of `createProfileEvent`.  All fields are
optional at runtime (the builder guards every field with a truthiness
check); `lightning` is carried but deliberately never emitted as a tag
(it belongs in the kind-0 record). -/
structure AgentProfile where
  name : Option String
  description : Option String
  capabilities : Option (List String)
  framework : Option String
  model : Option String
  website : Option String
  avatar : Option String
  lightning : Option String
  human : Option String
  ownerX : Option String
  status : Option String
  messagingPolicy : Option String
  messagingMinTrust : Option Int
  messagingFee : Option Int
  portfolio : Option (List PortfolioItem)
  skills : Option (List String)
  experience : Option (List String)
  deriving Repr, DecidableEq

/-- The profile with every field absent. -/
def emptyProfile : AgentProfile :=
  { name := none, description := none, capabilities := none, framework := none
    model := none, website := none, avatar := none, lightning := none
    human := none, ownerX := none, status := none, messagingPolicy := none
    messagingMinTrust := none, messagingFee := none, portfolio := none
    skills := none, experience := none }

/-- `if (profile.x) tags.push([key, profile.x]);` — append one tag when the
optional string field is truthy. -/
def pushScalar (key : String) (v : Option String) (tags : List Tag) : List Tag :=
  match v with
  | some s => if s == "" then tags else tags ++ [[key, s]]
  | none => tags

/-- `if (profile.status) tags.push(['status', profile.status || 'active']);`
— the inner `|| 'active'` fallback is kept verbatim even though the outer
guard already requires a truthy status. -/
def pushStatus (v : Option String) (tags : List Tag) : List Tag :=
  match v with
  | some s => if s == "" then tags
              else tags ++ [["status", if s == "" then "active" else s]]
  | none => tags

/-- `if (profile.x) tags.push([key, String(profile.x)]);` for a numeric
field (0 is falsy). -/
def pushIntScalar (key : String) (v : Option Int) (tags : List Tag) : List Tag :=
  match v with
  | some n => if n == 0 then tags else tags ++ [[key, jsString n]]
  | none => tags

/-- `if (profile.xs) { for (const x of profile.xs) tags.push([key, x]); }` —
a present list (even `[]`, which is truthy in JS) contributes one tag per
entry. -/
def pushEach (key : String) (v : Option (List String)) (tags : List Tag) : List Tag :=
  match v with
  | some xs => tags ++ xs.map (fun x => [key, x])
  | none => tags

/-- Tag built for one portfolio item: `['portfolio', item.url]` plus the
name and description positional values when truthy. -/
def portfolioItemTag (it : PortfolioItem) : Tag :=
  ["portfolio", it.url]
    ++ (match it.name with | some n => if n == "" then [] else [n] | none => [])
    ++ (match it.description with | some d => if d == "" then [] else [d] | none => [])

/-- The portfolio loop of `createProfileEvent`. -/
def pushPortfolio (v : Option (List PortfolioItem)) (tags : List Tag) : List Tag :=
  match v with
  | some items => tags ++ items.map portfolioItemTag
  | none => tags

/-- The tag list assembled by `createProfileEvent`: the fixed discriminator
tag, then the chain of conditional pushes in source order. -/
def createProfileEventTags (p : AgentProfile) : List Tag :=
  let t0 : List Tag := [["d", "agentdex-profile"]]
  let t1 := pushScalar "name" p.name t0
  let t2 := pushScalar "description" p.description t1
  let t3 := pushEach "capability" p.capabilities t2
  let t4 := pushScalar "framework" p.framework t3
  let t5 := pushScalar "model" p.model t4
  let t6 := pushScalar "website" p.website t5
  let t7 := pushScalar "avatar" p.avatar t6
  let t8 := pushScalar "human" p.human t7
  let t9 := pushScalar "owner_x" p.ownerX t8
  let t10 := pushStatus p.status t9
  let t11 := pushScalar "messaging_policy" p.messagingPolicy t10
  let t12 := pushIntScalar "messaging_min_trust" p.messagingMinTrust t11
  let t13 := pushIntScalar "messaging_fee" p.messagingFee t12
  let t14 := pushPortfolio p.portfolio t13
  let t15 := pushEach "skill" p.skills t14
  let t16 := pushEach "experience" p.experience t15
  t16

/-- The unsigned part of a Nostr event handed to `finalizeEvent` (the
signature and id are produced by the external crypto library and carry no
logic of this repository). -/
structure UnsignedEvent where
  kind : Nat
  created_at : Nat
  tags : List Tag
  content : String
  deriving Repr, DecidableEq

/-- `createProfileEvent(sk, profile)` (kind-31337 variant): builds the tag
list and stamps the current second-resolution time. -/
def createProfileEvent (w : World) (p : AgentProfile) : UnsignedEvent :=
  { kind := 31337, created_at := w.now, tags := createProfileEventTags p, content := "" }

/-! ### The kind-31339 variant (`src/src/nostr.ts`)

The second record-building variant present in the sources: agent-specific
metadata only — no name/website/avatar/human tags, with `owner_type` and
`parent` instead. -/

/-- The `AgentProfile` interface of the kind-31339 variant. -/
structure AgentProfile31339 where
  name : Option String
  description : Option String
  capabilities : Option (List String)
  framework : Option String
  model : Option String
  ownerType : Option String
  ownerX : Option String
  status : Option String
  parent : Option String
  messagingPolicy : Option String
  messagingMinTrust : Option Int
  messagingFee : Option Int
  portfolio : Option (List PortfolioItem)
  skills : Option (List String)
  experience : Option (List String)
  deriving Repr, DecidableEq

/-- The kind-31339 profile with every field absent. -/
def emptyProfile31339 : AgentProfile31339 :=
  { name := none, description := none, capabilities := none, framework := none
    model := none, ownerType := none, ownerX := none, status := none
    parent := none, messagingPolicy := none, messagingMinTrust := none
    messagingFee := none, portfolio := none, skills := none, experience := none }

/-- Tag list assembled by the kind-31339 `createProfileEvent` (source order:
description, capability*, framework, model, owner_type, owner_x, parent,
status, messaging_policy, messaging_min_trust, messaging_fee, portfolio*,
skill*, experience*; the `name` field is never emitted). -/
def createProfileEventTags31339 (p : AgentProfile31339) : List Tag :=
  let t0 : List Tag := [["d", "agentdex-profile"]]
  let t1 := pushScalar "description" p.description t0
  let t2 := pushEach "capability" p.capabilities t1
  let t3 := pushScalar "framework" p.framework t2
  let t4 := pushScalar "model" p.model t3
  let t5 := pushScalar "owner_type" p.ownerType t4
  let t6 := pushScalar "owner_x" p.ownerX t5
  let t7 := pushScalar "parent" p.parent t6
  let t8 := pushStatus p.status t7
  let t9 := pushScalar "messaging_policy" p.messagingPolicy t8
  let t10 := pushIntScalar "messaging_min_trust" p.messagingMinTrust t9
  let t11 := pushIntScalar "messaging_fee" p.messagingFee t10
  let t12 := pushPortfolio p.portfolio t11
  let t13 := pushEach "skill" p.skills t12
  let t14 := pushEach "experience" p.experience t13
  t14

/-! ### Spec-side description of the profile tag list (claim C1)

A second definition written from the words of spec section 4.2 / claim C1:
one tag per populated (present and truthy) scalar field, one tag per entry
of each populated list field, in the documented fixed order, nothing at all
for an absent field. -/

/-- Spec side: the tags contributed by one optional scalar field. -/
def optTag (key : String) (v : Option String) : List Tag :=
  match v with
  | some s => if s == "" then [] else [[key, s]]
  | none => []

/-- Spec side: the tags contributed by one optional numeric field
(stringified integer). -/
def optIntTag (key : String) (v : Option Int) : List Tag :=
  match v with
  | some n => if n == 0 then [] else [[key, jsString n]]
  | none => []

/-- Spec side: one tag per entry of an optional list field. -/
def listTags (key : String) (v : Option (List String)) : List Tag :=
  match v with
  | some xs => xs.map (fun x => [key, x])
  | none => []

/-- Spec side: one portfolio tag per portfolio entry. -/
def portfolioTags (v : Option (List PortfolioItem)) : List Tag :=
  match v with
  | some items => items.map portfolioItemTag
  | none => []

/-- Spec side (claim C1): the fixed discriminator tag followed by the
per-field tags in the documented fixed order. -/
def specProfileTags (p : AgentProfile) : List Tag :=
  ["d", "agentdex-profile"] ::
    (optTag "name" p.name ++ optTag "description" p.description
      ++ listTags "capability" p.capabilities
      ++ optTag "framework" p.framework ++ optTag "model" p.model
      ++ optTag "website" p.website ++ optTag "avatar" p.avatar
      ++ optTag "human" p.human ++ optTag "owner_x" p.ownerX
      ++ optTag "status" p.status
      ++ optTag "messaging_policy" p.messagingPolicy
      ++ optIntTag "messaging_min_trust" p.messagingMinTrust
      ++ optIntTag "messaging_fee" p.messagingFee
      ++ portfolioTags p.portfolio
      ++ listTags "skill" p.skills ++ listTags "experience" p.experience)

/-- Spec-side description of the kind-31339 variant's tag list (its own
field order, from the source). -/
def specProfileTags31339 (p : AgentProfile31339) : List Tag :=
  ["d", "agentdex-profile"] ::
    (optTag "description" p.description
      ++ listTags "capability" p.capabilities
      ++ optTag "framework" p.framework ++ optTag "model" p.model
      ++ optTag "owner_type" p.ownerType ++ optTag "owner_x" p.ownerX
      ++ optTag "parent" p.parent
      ++ optTag "status" p.status
      ++ optTag "messaging_policy" p.messagingPolicy
      ++ optIntTag "messaging_min_trust" p.messagingMinTrust
      ++ optIntTag "messaging_fee" p.messagingFee
      ++ portfolioTags p.portfolio
      ++ listTags "skill" p.skills ++ listTags "experience" p.experience)

/-! ### Selecting tags by key -/

/-- All tags of a tag list whose key (first element) is `key`. -/
def tagsWithKey (key : String) (tags : List Tag) : List Tag :=
  tags.filter (fun t => t.head? == some key)

/-! ## Directory API client (`src/client.ts`)

`register` / `claim` share the shape: POST, then
`if (!res.ok && res.status !== 402) throw new Error(err.error || <msg>)`,
else `return res.json()`.  The parsed JSON body is modelled by its `error`
field plus an opaque payload; raising is modelled by `Except.error`. -/

/-- The parsed JSON body of an HTTP response: the `error` field the failure
path reads, plus the rest of the payload kept opaque. -/
structure JsonBody where
  error : Option String
  payload : String
  deriving Repr, DecidableEq

/-- An HTTP response as the client sees it: numeric status plus parsed body. -/
structure HttpResponse where
  status : Nat
  body : JsonBody
  deriving Repr, DecidableEq

/-- `res.ok` of the fetch API: status in the range 200-299. -/
def httpOk (status : Nat) : Bool :=
  decide (200 ≤ status) && decide (status ≤ 299)

/-- JS `a || dflt` over a possibly-undefined string. -/
def jsOrString (a : Option String) (dflt : String) : String :=
  match a with
  | some s => if s == "" then dflt else s
  | none => dflt

/-- `AgentdexClient.register`: throw unless ok or 402; otherwise hand back
the parsed body (the 402 payment payload included). -/
def registerCall (res : HttpResponse) : Except String JsonBody :=
  if !httpOk res.status && !(res.status == 402) then
    .error (jsOrString res.body.error "Registration failed")
  else
    .ok res.body

/-- `AgentdexClient.claim`: identical contract with its own fallback text. -/
def claimCall (res : HttpResponse) : Except String JsonBody :=
  if !httpOk res.status && !(res.status == 402) then
    .error (jsOrString res.body.error "Claim failed")
  else
    .ok res.body

/-- `AgentdexClient.registerStatus` normalization:
`data.paid = data.status === 'paid' || data.status === 'completed'`
(`data.status` may be absent). -/
def registerStatusPaid (rawStatus : Option String) : Bool :=
  (rawStatus == some "paid") || (rawStatus == some "completed")

/-- `AgentdexClient.claimStatus` normalization (verbatim duplicate of the
register one in the source). -/
def claimStatusPaid (rawStatus : Option String) : Bool :=
  (rawStatus == some "paid") || (rawStatus == some "completed")

/-! ## Payment polling loop (CLI `register` / `claim` commands)

```
const startTime = Date.now(); const timeout = 15 * 60 * 1000;
while (Date.now() - startTime < timeout) {
  await new Promise((r) => setTimeout(r, 3000));
  const status = await client.registerStatus(hash);
  if (status.paid) { ...; return; }
}
possibly fail with timeout
```

Each iteration costs one `pollIntervalMs` of wall time (the status check is
instantaneous in the model); `t` is the elapsed time at the loop guard and
`n` counts status checks already made.  The `fuel` argument only bounds the
recursion; `timeoutMs + 1` iterations can never be reached when the
interval is positive, since elapsed time grows by the interval each turn. -/

/-- Outcome of the polling loop: paid after a number of status checks, or
timed out. -/
inductive PollResult where
  | paid (checks : Nat)
  | timedOut
  deriving Repr, DecidableEq

/-- One-guard-per-turn model of the `while` loop above. -/
def pollGo (check : Nat → Bool) (intervalMs timeoutMs : Nat) :
    Nat → Nat → Nat → PollResult
  | 0, _, _ => .timedOut
  | fuel + 1, t, n =>
    if t < timeoutMs then
      if check n then .paid (n + 1)
      else pollGo check intervalMs timeoutMs fuel (t + intervalMs) (n + 1)
    else .timedOut

/-- The payment poll of the `register`/`claim` commands, parameterized by
the status-check outcomes. -/
def awaitPayment (check : Nat → Bool) (intervalMs timeoutMs : Nat) : PollResult :=
  pollGo check intervalMs timeoutMs (timeoutMs + 1) 0 0

/-- Poll interval hard-coded in both commands: 3000 ms. -/
def pollIntervalMs : Nat := 3000

/-- Poll timeout hard-coded in both commands: `15 * 60 * 1000` ms. -/
def paymentTimeoutMs : Nat := 15 * 60 * 1000

/-- The `register` command's poll loop at its hard-coded constants. -/
def registerPollLoop (check : Nat → Bool) : PollResult :=
  awaitPayment check pollIntervalMs paymentTimeoutMs

/-- The `claim` command's poll loop at its hard-coded constants. -/
def claimPollLoop (check : Nat → Bool) : PollResult :=
  awaitPayment check pollIntervalMs paymentTimeoutMs

/-! ## Relay publisher (`publishToRelays`)

`Promise.allSettled` over one publish attempt per relay, then a loop that
keeps the fulfilled values; the pool is closed in a `finally`.  An attempt's
failure mode (timeout, rejection, connection error) is supplied by the
environment as `fail : String → Option String` (`some msg` = that attempt
settles rejected with `msg`). -/

/-- One settled promise of `Promise.allSettled`. -/
inductive SettledResult (α : Type) where
  | fulfilled (value : α)
  | rejected (reason : String)
  deriving Repr, DecidableEq

/-- One relay publish attempt: fulfilled with the relay identifier, or
rejected with the environment-supplied failure. -/
def attemptPublish (fail : String → Option String) (relay : String) :
    SettledResult String :=
  match fail relay with
  | none => .fulfilled relay
  | some msg => .rejected msg

/-- The collection loop: keep the value of every fulfilled result, in
order. -/
def collectFulfilled : List (SettledResult String) → List String
  | [] => []
  | .fulfilled v :: rest => v :: collectFulfilled rest
  | .rejected _ :: rest => collectFulfilled rest

/-- Result of `publishToRelays`: the relays that accepted the event, plus
the fact that the pool was closed (the `finally` block). -/
structure PublishOutcome where
  published : List String
  poolClosed : Bool
  deriving Repr, DecidableEq

/-- `publishToRelays(event, relays)`: all attempts settle, fulfilled ones
are collected, the pool close in `finally` runs on every path. -/
def publishToRelays (fail : String → Option String) (relays : List String) :
    PublishOutcome :=
  { published := collectFulfilled (relays.map (attemptPublish fail))
    poolClosed := true }

/-! ## Key resolver (CLI `resolveKey` + `parseSecretKey`) -/

/-- Is `c` one of `[0-9a-fA-F]`? -/
def isHexDigit (c : Char) : Bool :=
  decide (48 ≤ c.toNat ∧ c.toNat ≤ 57)
    || decide (97 ≤ c.toNat ∧ c.toNat ≤ 102)
    || decide (65 ≤ c.toNat ∧ c.toNat ≤ 70)

/-- The `/^[0-9a-f]{64}$/i` test. -/
def isHex64 (s : String) : Bool :=
  s.length == 64 && s.toList.all isHexDigit

/-- Value of one hex digit. -/
def hexDigitVal (c : Char) : Nat :=
  if c.toNat ≤ 57 then c.toNat - 48
  else if c.toNat ≤ 70 then c.toNat - 55
  else c.toNat - 87

/-- `Buffer.from(s, 'hex')`: consecutive digit pairs to bytes. -/
def hexPairsToBytes : List Char → List Nat
  | a :: b :: rest => (16 * hexDigitVal a + hexDigitVal b) :: hexPairsToBytes rest
  | _ => []

/-- Bytes of a hex string. -/
def hexToBytes (s : String) : List Nat :=
  hexPairsToBytes s.toList

/-- JS `s.startsWith(pre)`, over the character lists (the library
function, reimplemented so concrete instances evaluate in the kernel). -/
def jsStartsWith (s pre : String) : Bool :=
  pre.toList.isPrefixOf s.toList

/-- Result of the external `nip19.decode`: a type label plus data bytes, or
a thrown decoding error.  Supplied as a parameter (external library). -/
abbrev Nip19Decoder := String → Except String (String × List Nat)

/-- `parseSecretKey(input)`: nsec branch (delegating to the decoder), then
the 64-hex branch, else the invalid-format error. -/
def parseSecretKey (dec : Nip19Decoder) (input : String) : Except String (List Nat) :=
  if jsStartsWith input "nsec" then
    match dec input with
    | .error e => .error e
    | .ok (ty, data) => if ty == "nsec" then .ok data else .error "Invalid nsec"
  else if isHex64 input then
    .ok (hexToBytes input)
  else
    .error "Invalid key format. Provide nsec or 64-char hex."

/-- The parsed JSON contents of a `--key-file`: the two recognized fields. -/
structure KeyFileData where
  sk_hex : Option String
  nsec : Option String
  deriving Repr, DecidableEq

/-- JS `a || b` over possibly-undefined strings. -/
def jsOr (a b : Option String) : Option String :=
  if truthy a then a else b

/-- The CLI's `resolveKey`: explicit `--nsec` flag, else `NOSTR_NSEC`
env var, else the key file's `sk_hex` or `nsec` field; with the three
failure messages of the source. -/
def resolveKey (dec : Nip19Decoder) (nsecFlag envVar : Option String)
    (keyFile : Option KeyFileData) : Except String (List Nat) :=
  let raw := jsOr nsecFlag envVar
  if truthy raw then
    parseSecretKey dec (raw.getD "")
  else
    match keyFile with
    | some data =>
      if truthy data.sk_hex then parseSecretKey dec (data.sk_hex.getD "")
      else if truthy data.nsec then parseSecretKey dec (data.nsec.getD "")
      else .error "Key file must contain sk_hex or nsec"
    | none => .error "No key provided. Use --nsec, --key-file, or set NOSTR_NSEC env var."

/-- `parseSecretKey` embedded with an explicit ambient world argument: the
source reads neither the clock nor any other ambient state here. -/
def parseSecretKeyIn (dec : Nip19Decoder) (_w : World) (input : String) :
    Except String (List Nat) :=
  parseSecretKey dec input

/-- `getNpub(sk) = nip19.npubEncode(getPublicKey(sk))`, with the two
external crypto functions as parameters and an explicit ambient world
argument (again unread by the source). -/
def getNpubIn (getPublicKey : List Nat → String) (npubEncode : String → String)
    (_w : World) (sk : List Nat) : String :=
  npubEncode (getPublicKey sk)

/-! ## Relay lists of the commands -/

/-- `DEFAULT_RELAYS` of `nostr.ts`. -/
def DEFAULT_RELAYS : List String := ["wss://nos.lol", "wss://relay.damus.io"]

/-- `register`: `const relays = ['wss://nos.lol', 'wss://relay.damus.io', ...options.relay];` -/
def registerCommandRelays (userRelays : List String) : List String :=
  ["wss://nos.lol", "wss://relay.damus.io"] ++ userRelays

/-- `claim`: `const relays = ['wss://nos.lol', 'wss://relay.damus.io', ...(options.relay || [])];` -/
def claimCommandRelays (userRelays : List String) : List String :=
  ["wss://nos.lol", "wss://relay.damus.io"] ++ userRelays

/-- `publish`: `const relays = ['wss://nos.lol', 'wss://relay.damus.io', ...options.relay];` -/
def publishCommandRelays (userRelays : List String) : List String :=
  ["wss://nos.lol", "wss://relay.damus.io"] ++ userRelays

/-- A sample external nip19 decoder for concrete witnesses: rejects
everything as undecodable. -/
def sampleDecoder : Nip19Decoder := fun _ => .error "bech32 decode failed"

/-- A 64-character hex string used in concrete witnesses. -/
def sampleHexKey : String :=
  "aaaaaaaaaaaaaaaaaaaaaaaaaaaaaaaaaaaaaaaaaaaaaaaaaaaaaaaaaaaaaaaa"

/-! ## Event-builder lemmas -/

/-! ### Bridging lemmas: each conditional push appends its spec-side tags. -/

lemma pushScalar_eq (key : String) (v : Option String) (tags : List Tag) :
    pushScalar key v tags = tags ++ optTag key v := by
  cases v with
  | none => simp [pushScalar, optTag]
  | some s =>
    by_cases h : s == "" <;> simp [pushScalar, optTag, h]

lemma pushStatus_eq (v : Option String) (tags : List Tag) :
    pushStatus v tags = tags ++ optTag "status" v := by
  cases v with
  | none => simp [pushStatus, optTag]
  | some s =>
    by_cases h : s == "" <;> simp [pushStatus, optTag, h]

lemma pushIntScalar_eq (key : String) (v : Option Int) (tags : List Tag) :
    pushIntScalar key v tags = tags ++ optIntTag key v := by
  cases v with
  | none => simp [pushIntScalar, optIntTag]
  | some n =>
    by_cases h : n == 0 <;> simp [pushIntScalar, optIntTag, h]

lemma pushEach_eq (key : String) (v : Option (List String)) (tags : List Tag) :
    pushEach key v tags = tags ++ listTags key v := by
  cases v <;> simp [pushEach, listTags]

lemma pushPortfolio_eq (v : Option (List PortfolioItem)) (tags : List Tag) :
    pushPortfolio v tags = tags ++ portfolioTags v := by
  cases v <;> simp [pushPortfolio, portfolioTags]

/-- The source tag builder produces exactly the spec-side tag list. -/
lemma createProfileEventTags_eq_spec (p : AgentProfile) :
    createProfileEventTags p = specProfileTags p := by
  simp only [createProfileEventTags, specProfileTags, pushScalar_eq, pushStatus_eq,
    pushIntScalar_eq, pushEach_eq, pushPortfolio_eq, List.append_assoc,
    List.singleton_append, List.cons_append, List.nil_append]

/-- The kind-31339 tag builder also produces exactly its spec-side list. -/
lemma createProfileEventTags31339_eq_spec (p : AgentProfile31339) :
    createProfileEventTags31339 p = specProfileTags31339 p := by
  simp only [createProfileEventTags31339, specProfileTags31339, pushScalar_eq, pushStatus_eq,
    pushIntScalar_eq, pushEach_eq, pushPortfolio_eq, List.append_assoc,
    List.singleton_append, List.cons_append, List.nil_append]

lemma tagsWithKey_append (key : String) (a b : List Tag) :
    tagsWithKey key (a ++ b) = tagsWithKey key a ++ tagsWithKey key b := by
  simp [tagsWithKey]

lemma tagsWithKey_cons_ne (key : String) (t : Tag) (l : List Tag)
    (h : ¬ t.head? = some key) :
    tagsWithKey key (t :: l) = tagsWithKey key l := by
  simp [tagsWithKey, List.filter_cons, h]

lemma tagsWithKey_optTag (k key : String) (v : Option String) :
    tagsWithKey k (optTag key v) = if key = k then optTag key v else [] := by
  cases v with
  | none => simp [tagsWithKey, optTag]
  | some s =>
    by_cases hs : s == "" <;> by_cases hk : key = k <;>
      simp [tagsWithKey, optTag, hs, hk]

lemma tagsWithKey_optIntTag (k key : String) (v : Option Int) :
    tagsWithKey k (optIntTag key v) = if key = k then optIntTag key v else [] := by
  cases v with
  | none => simp [tagsWithKey, optIntTag]
  | some n =>
    by_cases hn : n == 0 <;> by_cases hk : key = k <;>
      simp [tagsWithKey, optIntTag, hn, hk]

lemma tagsWithKey_listTags (k key : String) (v : Option (List String)) :
    tagsWithKey k (listTags key v) = if key = k then listTags key v else [] := by
  cases v with
  | none => simp [tagsWithKey, listTags]
  | some xs =>
    induction xs with
    | nil => simp [tagsWithKey, listTags]
    | cons x xs ih =>
      by_cases hk : key = k <;> simp_all [tagsWithKey, listTags]

lemma portfolioItemTag_head (it : PortfolioItem) :
    (portfolioItemTag it).head? = some "portfolio" := by
  simp [portfolioItemTag]

lemma tagsWithKey_portfolioTags (k : String) (v : Option (List PortfolioItem))
    (h : ¬ "portfolio" = k) :
    tagsWithKey k (portfolioTags v) = [] := by
  cases v with
  | none => simp [tagsWithKey, portfolioTags]
  | some items =>
    induction items with
    | nil => simp [tagsWithKey, portfolioTags]
    | cons it items ih =>
      simp_all [tagsWithKey, portfolioTags, portfolioItemTag_head]

/-- Only the `status` source line contributes `status`-keyed tags. -/
lemma tagsWithKey_status_spec (p : AgentProfile) :
    tagsWithKey "status" (specProfileTags p) = optTag "status" p.status := by
  rw [specProfileTags, tagsWithKey_cons_ne _ _ _ (by simp)]
  simp [tagsWithKey_append, tagsWithKey_optTag, tagsWithKey_optIntTag,
    tagsWithKey_listTags, tagsWithKey_portfolioTags]


/-! ## Poll-loop lemmas -/

/-- If the status check is false for the first `k` calls (counting from `n`)
and true on the next, the loop pays out after exactly `k + 1` further
checks, provided the guard still passes at every one of those turns. -/
lemma pollGo_paid (check : Nat → Bool) (interval timeout : Nat) :
    ∀ k fuel t n, (∀ i, i < k → check (n + i) = false) → check (n + k) = true →
      t + k * interval < timeout → k < fuel →
      pollGo check interval timeout fuel t n = .paid (n + k + 1) := by
  intro k
  induction k with
  | zero =>
    intro fuel t n _ hpaid hto hfuel
    obtain ⟨f, rfl⟩ : ∃ f, fuel = f + 1 := ⟨fuel - 1, by omega⟩
    have ht : t < timeout := by simpa using hto
    have hp : check n = true := by simpa using hpaid
    simp [pollGo, ht, hp]
  | succ k ih =>
    intro fuel t n hunpaid hpaid hto hfuel
    obtain ⟨f, rfl⟩ : ∃ f, fuel = f + 1 := ⟨fuel - 1, by omega⟩
    have ht : t < timeout := by
      have : t ≤ t + (k + 1) * interval := Nat.le_add_right _ _
      exact lt_of_le_of_lt this hto
    have h0 : check n = false := by simpa using hunpaid 0 (Nat.succ_pos k)
    have hrec := ih f (t + interval) (n + 1)
      (fun i hi => by
        have := hunpaid (i + 1) (by omega)
        rwa [show n + (i + 1) = n + 1 + i from by omega] at this)
      (by rwa [show n + 1 + k = n + (k + 1) from by omega])
      (by
        have hsm : (k + 1) * interval = k * interval + interval := by ring
        rw [hsm] at hto
        linarith)
      (by omega)
    simp only [pollGo, if_pos ht, h0, Bool.false_eq_true, if_false]
    rw [hrec]
    congr 1
    omega

/-- A status check that never reports paid makes the loop run until the
guard fails: the result is always a timeout. -/
lemma pollGo_never_paid (check : Nat → Bool) (interval timeout : Nat)
    (hnever : ∀ n, check n = false) :
    ∀ fuel t n, pollGo check interval timeout fuel t n = .timedOut := by
  intro fuel
  induction fuel with
  | zero => intro t n; rfl
  | succ f ih =>
    intro t n
    simp only [pollGo]
    split
    · simp [hnever n, ih]
    · rfl

/-! ## Relay-publisher lemmas -/

/-- The fulfilled-collection loop keeps exactly the attempts the
environment lets succeed, in input order. -/
lemma collectFulfilled_map (fail : String → Option String) :
    ∀ relays : List String,
      collectFulfilled (relays.map (attemptPublish fail))
        = relays.filter (fun r => (fail r).isNone) := by
  intro relays
  induction relays with
  | nil => rfl
  | cons r rest ih =>
    cases hf : fail r <;>
      simp [attemptPublish, collectFulfilled, hf, ih, List.filter_cons]

/-- Splitting a list by a predicate preserves total length. -/
lemma filter_length_partition (p : String → Bool) :
    ∀ l : List String,
      (l.filter p).length + (l.filter (fun a => !(p a))).length = l.length := by
  intro l
  induction l with
  | nil => rfl
  | cons a l ih => cases h : p a <;> simp [List.filter_cons, h] <;> omega

/-! ## Claim theorems -/

/-- C1: for every AgentProfile in which only a subset of the optional
fields is populated (present with a truthy value), `createProfileEvent`
produces a record whose tag list is the fixed discriminator tag
`['d','agentdex-profile']` followed by exactly one tag per populated
scalar field and one tag per entry of each populated list field, in the
documented fixed field order, with no tag at all (never an empty or null
placeholder) for an absent field. -/
theorem profile_record_tags_exactly_populated_fields (w : World) (p : AgentProfile) :
    (createProfileEvent w p).tags = specProfileTags p :=
  createProfileEventTags_eq_spec p

/-- C2: for `register` and `claim`, a non-success HTTP status other than
402 raises an error carrying the server-supplied message when a non-empty
one is present, while a 402 status is a normal, non-error outcome handing
the payment payload back to the caller. -/
theorem register_claim_http_contract (res : HttpResponse) (m : String) :
    (httpOk res.status = false → res.status ≠ 402 → res.body.error = some m → m ≠ "" →
      registerCall res = .error m ∧ claimCall res = .error m)
    ∧ (res.status = 402 →
      registerCall res = .ok res.body ∧ claimCall res = .ok res.body) := by
  constructor
  · intro hok h402 herr hm
    have hb : (res.status == 402) = false := by simpa using h402
    constructor <;> simp [registerCall, claimCall, hok, hb, herr, jsOrString, hm]
  · intro h402
    constructor <;> simp [registerCall, claimCall, h402]

/-- Witness for C2 at a concrete 500 response with a server message and a
concrete 402 response. -/
theorem register_claim_http_contract_witness :
    (registerCall { status := 500, body := { error := some "boom", payload := "" } }
        = .error "boom"
      ∧ claimCall { status := 500, body := { error := some "boom", payload := "" } }
        = .error "boom")
    ∧ (registerCall { status := 402, body := { error := none, payload := "invoice" } }
        = .ok { error := none, payload := "invoice" }
      ∧ claimCall { status := 402, body := { error := none, payload := "invoice" } }
        = .ok { error := none, payload := "invoice" }) :=
  ⟨(register_claim_http_contract ⟨500, ⟨some "boom", ""⟩⟩ "boom").1
      (by decide) (by decide) rfl (by decide),
    (register_claim_http_contract ⟨402, ⟨none, "invoice"⟩⟩ "x").2 rfl⟩

/-- C3: the polling loop sleeps one interval, then checks once, and
repeats.  A check that is unpaid for the first `k` calls and paid on the
next makes the loop return Paid after exactly `k + 1` checks (timeout
permitting); a check that is never paid makes it return TimedOut once
elapsed time reaches the timeout — also at the commands' hard-coded
constants (3-second interval, 15-minute timeout, so `k < 300`). -/
theorem awaitPayment_poll_contract (check : Nat → Bool) (intervalMs timeoutMs k : Nat)
    (hpos : 0 < intervalMs) :
    ((∀ i, i < k → check i = false) → check k = true → k * intervalMs < timeoutMs →
      awaitPayment check intervalMs timeoutMs = .paid (k + 1))
    ∧ ((∀ n, check n = false) →
      awaitPayment check intervalMs timeoutMs = .timedOut)
    ∧ ((∀ i, i < k → check i = false) → check k = true → k < 300 →
      registerPollLoop check = .paid (k + 1) ∧ claimPollLoop check = .paid (k + 1))
    ∧ ((∀ n, check n = false) →
      registerPollLoop check = .timedOut ∧ claimPollLoop check = .timedOut) := by
  have hgen : ∀ interval timeout, 0 < interval →
      (∀ i, i < k → check i = false) → check k = true → k * interval < timeout →
      awaitPayment check interval timeout = .paid (k + 1) := by
    intro interval timeout hp hunpaid hpaid hto
    have hk : k < timeout + 1 := by
      have h1 : k * 1 ≤ k * interval := Nat.mul_le_mul_left k hp
      have h2 : k ≤ k * interval := by simpa using h1
      have h3 : k < timeout := lt_of_le_of_lt h2 hto
      omega
    have := pollGo_paid check interval timeout k (timeout + 1) 0 0
      (by simpa using hunpaid) (by simpa using hpaid) (by simpa using hto) hk
    simpa [awaitPayment] using this
  refine ⟨hgen intervalMs timeoutMs hpos, ?_, ?_, ?_⟩
  · intro hnever
    simpa [awaitPayment] using
      pollGo_never_paid check intervalMs timeoutMs hnever (timeoutMs + 1) 0 0
  · intro hunpaid hpaid hk
    have h300 : k * pollIntervalMs < paymentTimeoutMs := by
      simp only [pollIntervalMs, paymentTimeoutMs]
      omega
    exact ⟨hgen pollIntervalMs paymentTimeoutMs (by decide) hunpaid hpaid h300,
      hgen pollIntervalMs paymentTimeoutMs (by decide) hunpaid hpaid h300⟩
  · intro hnever
    constructor <;>
      simpa [registerPollLoop, claimPollLoop, awaitPayment] using
        pollGo_never_paid check pollIntervalMs paymentTimeoutMs hnever
          (paymentTimeoutMs + 1) 0 0

/-- Witness for C3 at the spec's shortened test parameters: a 10 ms
interval and a 25 ms timeout, with a check paid on the second call
(Paid after 2 checks) and a never-paid check (TimedOut), also at the
commands' hard-coded constants. -/
theorem awaitPayment_poll_contract_witness :
    awaitPayment (fun n => decide (1 ≤ n)) 10 25 = .paid 2
    ∧ awaitPayment (fun _ => false) 10 25 = .timedOut
    ∧ registerPollLoop (fun _ => false) = .timedOut :=
  ⟨(awaitPayment_poll_contract (fun n => decide (1 ≤ n)) 10 25 1 (by decide)).1
      (fun i hi => by
        have h0 : i = 0 := Nat.lt_one_iff.mp hi
        subst h0; decide)
      (by decide) (by decide),
    (awaitPayment_poll_contract (fun _ => false) 10 25 0 (by decide)).2.1
      (fun _ => rfl),
    ((awaitPayment_poll_contract (fun _ => false) 3000 900000 0 (by decide)).2.2.2
      (fun _ => rfl)).1⟩

/-- C4: for every list of relay endpoints with any subset failing,
`publishToRelays` returns exactly the succeeding endpoints (all N − M of
them), never raises itself (it is a total function into a normal result),
and the pool is closed on every exit path. -/
theorem publishToRelays_partial_failure (fail : String → Option String)
    (relays : List String) :
    (publishToRelays fail relays).published
        = relays.filter (fun r => (fail r).isNone)
    ∧ (publishToRelays fail relays).published.length
        = relays.length - (relays.filter (fun r => (fail r).isSome)).length
    ∧ (publishToRelays fail relays).poolClosed = true := by
  refine ⟨collectFulfilled_map fail relays, ?_, rfl⟩
  have hpart := filter_length_partition (fun r => (fail r).isNone) relays
  have hcongr : relays.filter (fun r => !(fail r).isNone)
      = relays.filter (fun r => (fail r).isSome) := by
    apply List.filter_congr
    intro r _
    cases fail r <;> rfl
  rw [hcongr] at hpart
  show (publishToRelays fail relays).published.length = _
  rw [show (publishToRelays fail relays).published
      = relays.filter (fun r => (fail r).isNone) from collectFulfilled_map fail relays]
  omega

/-- C5: the key resolver prefers the explicit flag over the environment
variable over the key file; with none of the three supplied it fails with
the missing-key error; a supplied value that is neither an nsec form nor
64 hex characters fails with the invalid-format error; a key file lacking
both recognized fields fails with the malformed-key-file error. -/
theorem resolveKey_contract (dec : Nip19Decoder) (nsecFlag envVar : Option String)
    (keyFile : Option KeyFileData) (s : String) :
    (truthy nsecFlag = true →
      resolveKey dec nsecFlag envVar keyFile = parseSecretKey dec (nsecFlag.getD ""))
    ∧ (truthy nsecFlag = false → truthy envVar = true →
      resolveKey dec nsecFlag envVar keyFile = parseSecretKey dec (envVar.getD ""))
    ∧ (truthy nsecFlag = false → truthy envVar = false → keyFile = none →
      resolveKey dec nsecFlag envVar keyFile
        = .error "No key provided. Use --nsec, --key-file, or set NOSTR_NSEC env var.")
    ∧ (∀ data, truthy nsecFlag = false → truthy envVar = false →
      keyFile = some data → data.sk_hex = none → data.nsec = none →
      resolveKey dec nsecFlag envVar keyFile
        = .error "Key file must contain sk_hex or nsec")
    ∧ (jsStartsWith s "nsec" = false → isHex64 s = false →
      parseSecretKey dec s = .error "Invalid key format. Provide nsec or 64-char hex.") := by
  refine ⟨?_, ?_, ?_, ?_, ?_⟩
  · intro hflag
    simp [resolveKey, jsOr, hflag]
  · intro hflag henv
    simp [resolveKey, jsOr, hflag, henv]
  · intro hflag henv hfile
    simp [resolveKey, jsOr, hflag, henv, hfile]
  · intro data hflag henv hfile hsk hnsec
    simp [resolveKey, jsOr, hflag, henv, hfile, hsk, hnsec,
      show truthy none = false from rfl]
  · intro hnsec hhex
    simp [parseSecretKey, hnsec, hhex]

/-- Witness for C5: the hex flag wins, the empty configuration reports the
missing-key error, a field-less key file reports the malformed error, and
a garbage value reports the invalid-format error. -/
theorem resolveKey_contract_witness :
    resolveKey sampleDecoder (some sampleHexKey) none none
        = parseSecretKey sampleDecoder sampleHexKey
    ∧ resolveKey sampleDecoder none none none
        = .error "No key provided. Use --nsec, --key-file, or set NOSTR_NSEC env var."
    ∧ resolveKey sampleDecoder none (some "") (some { sk_hex := none, nsec := none })
        = .error "Key file must contain sk_hex or nsec"
    ∧ parseSecretKey sampleDecoder "not-a-key"
        = .error "Invalid key format. Provide nsec or 64-char hex." :=
  ⟨(resolveKey_contract sampleDecoder (some sampleHexKey) none none "").1 (by decide),
    (resolveKey_contract sampleDecoder none none none "").2.2.1 rfl rfl rfl,
    (resolveKey_contract sampleDecoder none (some "") (some ⟨none, none⟩) "").2.2.2.1
      ⟨none, none⟩ rfl (by decide) rfl rfl rfl,
    (resolveKey_contract sampleDecoder none none none "not-a-key").2.2.2.2
      (by decide) (by decide)⟩

/-- C6: the normalized paid flag is true exactly for the raw statuses
"paid" and "completed", and false for "pending", "expired" and every
other value, for both the register and the claim status checks. -/
theorem status_normalization (s : String) :
    (registerStatusPaid (some s) = true ↔ (s = "paid" ∨ s = "completed"))
    ∧ (claimStatusPaid (some s) = true ↔ (s = "paid" ∨ s = "completed"))
    ∧ registerStatusPaid (some "pending") = false
    ∧ registerStatusPaid (some "expired") = false
    ∧ claimStatusPaid (some "pending") = false
    ∧ claimStatusPaid (some "expired") = false
    ∧ registerStatusPaid none = false
    ∧ claimStatusPaid none = false := by
  refine ⟨?_, ?_, by decide, by decide, by decide, by decide, rfl, rfl⟩ <;>
    simp [registerStatusPaid, claimStatusPaid]

/-- Witness for C6 at concrete raw statuses. -/
theorem status_normalization_witness :
    registerStatusPaid (some "completed") = true
    ∧ claimStatusPaid (some "expired") = false :=
  ⟨((status_normalization "completed").1).mpr (Or.inr rfl),
    (status_normalization "expired").2.2.2.2.2.1⟩

/-- C8: every relay-publishing command (register, claim, publish) uses
exactly the two default endpoints when the user supplies none, and appends
user-supplied endpoints after the two defaults, never replacing them. -/
theorem default_relays_preserved (extra : List String) :
    registerCommandRelays [] = DEFAULT_RELAYS
    ∧ claimCommandRelays [] = DEFAULT_RELAYS
    ∧ publishCommandRelays [] = DEFAULT_RELAYS
    ∧ registerCommandRelays extra = DEFAULT_RELAYS ++ extra
    ∧ claimCommandRelays extra = DEFAULT_RELAYS ++ extra
    ∧ publishCommandRelays extra = DEFAULT_RELAYS ++ extra := by
  refine ⟨?_, ?_, ?_, rfl, rfl, rfl⟩ <;>
    simp [registerCommandRelays, claimCommandRelays, publishCommandRelays, DEFAULT_RELAYS]

/-- C9: parsing a 64-hex-character key and deriving the public identifier
reads no ambient state: two calls in arbitrary worlds yield the same
SigningKey bytes and the same derived npub. -/
theorem key_derivation_deterministic (dec : Nip19Decoder)
    (getPublicKey : List Nat → String) (npubEncode : String → String)
    (w₁ w₂ : World) (s : String) (hhex : isHex64 s = true) :
    parseSecretKeyIn dec w₁ s = parseSecretKeyIn dec w₂ s
    ∧ (∀ sk, parseSecretKeyIn dec w₁ s = .ok sk →
        getNpubIn getPublicKey npubEncode w₁ sk = getNpubIn getPublicKey npubEncode w₂ sk) :=
  ⟨rfl, fun _ _ => rfl⟩

/-- Witness for C9 at a concrete accepted hex key and two distinct
worlds. -/
theorem key_derivation_deterministic_witness :
    parseSecretKeyIn sampleDecoder ⟨0⟩ sampleHexKey
        = parseSecretKeyIn sampleDecoder ⟨99⟩ sampleHexKey
    ∧ getNpubIn (fun b => toString b) (fun h => "npub1" ++ h) ⟨0⟩ (hexToBytes sampleHexKey)
        = getNpubIn (fun b => toString b) (fun h => "npub1" ++ h) ⟨99⟩ (hexToBytes sampleHexKey) :=
  ⟨(key_derivation_deterministic sampleDecoder (fun b => toString b)
      (fun h => "npub1" ++ h) ⟨0⟩ ⟨99⟩ sampleHexKey (by decide)).1,
    (key_derivation_deterministic sampleDecoder (fun b => toString b)
      (fun h => "npub1" ++ h) ⟨0⟩ ⟨99⟩ sampleHexKey (by decide)).2
      (hexToBytes sampleHexKey) rfl⟩

/-- C7 counterexample: for a profile whose status is present but falsy
(the empty string), `createProfileEvent` emits no status tag at all — in
particular no `['status', 'active']` tag, contrary to the claimed
present-but-falsy default. -/
theorem status_falsy_default_counterexample :
    ({ emptyProfile with status := some "" } : AgentProfile).status = some ""
    ∧ (createProfileEvent ⟨0⟩ { emptyProfile with status := some "" }).tags
        = [["d", "agentdex-profile"]]
    ∧ ["status", "active"] ∉
        (createProfileEvent ⟨0⟩ { emptyProfile with status := some "" }).tags :=
  ⟨rfl, rfl, by decide⟩

/-- C7 amended: a present-but-falsy status emits no status tag (the
`|| 'active'` fallback is unreachable behind the truthiness guard); a
present truthy status emits exactly one status tag carrying the status
value itself. -/
theorem status_tag_only_when_truthy (w : World) (p : AgentProfile) :
    (p.status = some "" → tagsWithKey "status" (createProfileEvent w p).tags = [])
    ∧ (∀ s, p.status = some s → s ≠ "" →
        tagsWithKey "status" (createProfileEvent w p).tags = [["status", s]]) := by
  have hspec : (createProfileEvent w p).tags = specProfileTags p :=
    createProfileEventTags_eq_spec p
  constructor
  · intro h
    rw [hspec, tagsWithKey_status_spec, h]
    simp [optTag]
  · intro s hs hne
    rw [hspec, tagsWithKey_status_spec, hs]
    simp [optTag, hne]

/-- Witness for the amended C7 at an empty and a truthy concrete status. -/
theorem status_tag_only_when_truthy_witness :
    tagsWithKey "status"
        (createProfileEvent ⟨0⟩ { emptyProfile with status := some "" }).tags = []
    ∧ tagsWithKey "status"
        (createProfileEvent ⟨0⟩ { emptyProfile with status := some "paused" }).tags
      = [["status", "paused"]] :=
  ⟨(status_tag_only_when_truthy ⟨0⟩ { emptyProfile with status := some "" }).1 rfl,
    (status_tag_only_when_truthy ⟨0⟩ { emptyProfile with status := some "paused" }).2
      "paused" rfl (by decide)⟩

/-- C10: a falsy present optional field — the integer 0 for the two
messaging numbers, the empty string for status or any other string
field — emits no tag: the built tag list is identical to the one for the
profile with that field absent, in both record-building variants. -/
theorem falsy_fields_emit_no_tag (w : World) (p : AgentProfile) (q : AgentProfile31339) :
    (createProfileEvent w { p with name := some "" }).tags
        = (createProfileEvent w { p with name := none }).tags
    ∧ (createProfileEvent w { p with description := some "" }).tags
        = (createProfileEvent w { p with description := none }).tags
    ∧ (createProfileEvent w { p with framework := some "" }).tags
        = (createProfileEvent w { p with framework := none }).tags
    ∧ (createProfileEvent w { p with model := some "" }).tags
        = (createProfileEvent w { p with model := none }).tags
    ∧ (createProfileEvent w { p with website := some "" }).tags
        = (createProfileEvent w { p with website := none }).tags
    ∧ (createProfileEvent w { p with avatar := some "" }).tags
        = (createProfileEvent w { p with avatar := none }).tags
    ∧ (createProfileEvent w { p with human := some "" }).tags
        = (createProfileEvent w { p with human := none }).tags
    ∧ (createProfileEvent w { p with ownerX := some "" }).tags
        = (createProfileEvent w { p with ownerX := none }).tags
    ∧ (createProfileEvent w { p with status := some "" }).tags
        = (createProfileEvent w { p with status := none }).tags
    ∧ (createProfileEvent w { p with messagingPolicy := some "" }).tags
        = (createProfileEvent w { p with messagingPolicy := none }).tags
    ∧ (createProfileEvent w { p with messagingMinTrust := some 0 }).tags
        = (createProfileEvent w { p with messagingMinTrust := none }).tags
    ∧ (createProfileEvent w { p with messagingFee := some 0 }).tags
        = (createProfileEvent w { p with messagingFee := none }).tags
    ∧ createProfileEventTags31339 { q with description := some "" }
        = createProfileEventTags31339 { q with description := none }
    ∧ createProfileEventTags31339 { q with ownerType := some "" }
        = createProfileEventTags31339 { q with ownerType := none }
    ∧ createProfileEventTags31339 { q with parent := some "" }
        = createProfileEventTags31339 { q with parent := none }
    ∧ createProfileEventTags31339 { q with status := some "" }
        = createProfileEventTags31339 { q with status := none }
    ∧ createProfileEventTags31339 { q with messagingMinTrust := some 0 }
        = createProfileEventTags31339 { q with messagingMinTrust := none }
    ∧ createProfileEventTags31339 { q with messagingFee := some 0 }
        = createProfileEventTags31339 { q with messagingFee := none } := by
  refine ⟨?_, ?_, ?_, ?_, ?_, ?_, ?_, ?_, ?_, ?_, ?_, ?_, ?_, ?_, ?_, ?_, ?_, ?_⟩ <;>
    simp [createProfileEvent, createProfileEventTags_eq_spec,
      createProfileEventTags31339_eq_spec, specProfileTags, specProfileTags31339,
      optTag, optIntTag]

end Agentdex
